import Mathlib

/-!
Verification of the Matter certificate, data-model, transport and CASE
components of this repository, against a shallow embedding of the source.

Bytes are modelled as `Nat` values (< 256 where produced by the code).
The TLV codec and the ASN.1 writer are not part of the sources; they are
modelled from the specification (each such definition is marked
`Modelled from the spec:`).  Everything else is translated directly from
`cert/mod.rs`, `matter_macro_derive/src/lib.rs`, `data_model/core.rs`,
`transport/plain_hdr.rs`, `transport/session.rs`, `transport/exchange.rs`
and `secure_channel/case.rs`.
-/

set_option maxRecDepth 100000

deriving instance DecidableEq for Except

namespace MatterSpec

/-- Error type, the constructors used by the verified components
(subset of `error.rs`).  `Panicked` is not a source error value: it models
a Rust panic (index out of bounds). -/
inductive Error where
  | Invalid
  | InvalidAuthKey
  | InvalidSignature
  | NoTagFound
  | NoSpace
  | Panicked
deriving DecidableEq, Repr

/-! ## TLV element model

Modelled from the spec: Matter TLV elements are tagged, typed,
self-delimiting values; a control byte encodes (element-type, tag-form),
followed by tag bytes, length bytes and value bytes; containers are
terminated by an end-of-container control byte (spec section 3 and 6). -/

/-- A TLV tag: anonymous or context (0..255). -/
inductive TLVTag where
  | anonymous
  | context (n : Nat)
deriving DecidableEq, Repr

/-- Container kinds: struct, array, list. -/
inductive ContKind where
  | structK
  | arrayK
  | listK
deriving DecidableEq, Repr

/-- A decoded TLV element.  Unsigned integers record the width
(1, 2, 4 or 8 bytes) they were encoded with; octet strings record the
length-field width. -/
inductive TLVElem where
  | uintEl (tag : TLVTag) (width : Nat) (val : Nat)
  | boolEl (tag : TLVTag) (b : Bool)
  | strEl (tag : TLVTag) (lenWidth : Nat) (bytes : List Nat)
  | structEl (tag : TLVTag) (children : List TLVElem)
  | arrayEl (tag : TLVTag) (children : List TLVElem)
  | listEl (tag : TLVTag) (children : List TLVElem)

/-- Read `w` little-endian bytes as a natural number. -/
def readLE : Nat → List Nat → Option (Nat × List Nat)
  | 0, rest => some (0, rest)
  | _ + 1, [] => none
  | w + 1, b :: rest =>
    match readLE w rest with
    | none => none
    | some (v, r) => some (b + 256 * v, r)

/-- Split off the first `n` bytes. -/
def takeBytes : Nat → List Nat → Option (List Nat × List Nat)
  | 0, rest => some ([], rest)
  | _ + 1, [] => none
  | n + 1, b :: rest =>
    match takeBytes n rest with
    | none => none
    | some (bs, r) => some (b :: bs, r)

/-- Byte width of an unsigned-integer element type code (4..7). -/
def uintWidthOf (etype : Nat) : Nat :=
  if etype = 4 then 1 else if etype = 5 then 2 else if etype = 6 then 4 else 8

/-- One lexical token of the TLV byte stream. -/
inductive TLVTok where
  | primT (e : TLVElem)
  | openT (tag : TLVTag) (k : ContKind)
  | closeT

/-- Modelled from the spec: parse the tag bytes given the tag-control
field of the control byte (0 = anonymous, 1 = 1-byte context tag;
profile-scoped forms are not used by any certificate input). -/
def parseTag (tagCtrl : Nat) (rest : List Nat) : Option (TLVTag × List Nat) :=
  if tagCtrl = 0 then some (TLVTag.anonymous, rest)
  else if tagCtrl = 1 then
    match rest with
    | [] => none
    | t :: r => some (TLVTag.context t, r)
  else none

/-- Modelled from the spec: decode one TLV token (control byte, tag bytes,
length bytes, value bytes).  Element types: 4..7 unsigned ints of width
1/2/4/8; 8/9 boolean; 16..19 octet strings with 1/2/4/8-byte lengths;
21 struct, 22 array, 23 list, 24 end-of-container. -/
def nextTok : List Nat → Option (TLVTok × List Nat)
  | [] => none
  | c :: rest =>
    let tagCtrl := c / 32
    let etype := c % 32
    if etype = 24 then
      if tagCtrl = 0 then some (TLVTok.closeT, rest) else none
    else
      match parseTag tagCtrl rest with
      | none => none
      | some (tag, r1) =>
        if etype = 21 then some (TLVTok.openT tag ContKind.structK, r1)
        else if etype = 22 then some (TLVTok.openT tag ContKind.arrayK, r1)
        else if etype = 23 then some (TLVTok.openT tag ContKind.listK, r1)
        else if 4 ≤ etype ∧ etype ≤ 7 then
          match readLE (uintWidthOf etype) r1 with
          | none => none
          | some (v, r2) => some (TLVTok.primT (TLVElem.uintEl tag (uintWidthOf etype) v), r2)
        else if etype = 8 then some (TLVTok.primT (TLVElem.boolEl tag false), r1)
        else if etype = 9 then some (TLVTok.primT (TLVElem.boolEl tag true), r1)
        else if 16 ≤ etype ∧ etype ≤ 19 then
          let w := uintWidthOf (etype - 12)
          match readLE w r1 with
          | none => none
          | some (len, r2) =>
            match takeBytes len r2 with
            | none => none
            | some (bs, r3) => some (TLVTok.primT (TLVElem.strEl tag w bs), r3)
        else none

/-- Build a container element. -/
def mkContainer (tag : TLVTag) (k : ContKind) (children : List TLVElem) : TLVElem :=
  match k with
  | ContKind.structK => TLVElem.structEl tag children
  | ContKind.arrayK => TLVElem.arrayEl tag children
  | ContKind.listK => TLVElem.listEl tag children

/-- Modelled from the spec: iterative TLV parser for one root element.
The stack holds the open containers (tag, kind, reversed children). -/
def parseLoop : Nat → List Nat → List (TLVTag × ContKind × List TLVElem) →
    Option (TLVElem × List Nat)
  | 0, _, _ => none
  | fuel + 1, input, stack =>
    match nextTok input with
    | none => none
    | some (tok, rest) =>
      match tok, stack with
      | TLVTok.primT e, [] => some (e, rest)
      | TLVTok.primT e, (t, k, acc) :: s => parseLoop fuel rest ((t, k, e :: acc) :: s)
      | TLVTok.openT t k, s => parseLoop fuel rest ((t, k, []) :: s)
      | TLVTok.closeT, [] => none
      | TLVTok.closeT, (t, k, acc) :: s =>
        let e := mkContainer t k acc.reverse
        match s with
        | [] => some (e, rest)
        | (t2, k2, acc2) :: s2 => parseLoop fuel rest ((t2, k2, e :: acc2) :: s2)

/-- Modelled from the spec: `decode-root(bytes) → element`. -/
def get_root_node (bytes : List Nat) : Option TLVElem :=
  match parseLoop (bytes.length + 1) bytes [] with
  | none => none
  | some (e, _) => some e

/-! TLV element accessors.  Modelled from the spec: the typed accessors
fail with type-mismatch on accessor/type disagreement; an unsigned
accessor of width `w` accepts any narrower unsigned element (the
repository fixtures decode 1-byte integers through the u64 accessor). -/

/-- The tag of an element. -/
def TLVElem.getTag : TLVElem → TLVTag
  | TLVElem.uintEl t _ _ => t
  | TLVElem.boolEl t _ => t
  | TLVElem.strEl t _ _ => t
  | TLVElem.structEl t _ => t
  | TLVElem.arrayEl t _ => t
  | TLVElem.listEl t _ => t

/-- u64 accessor: any unsigned integer element. -/
def TLVElem.u64? : TLVElem → Option Nat
  | TLVElem.uintEl _ _ v => some v
  | _ => none

/-- u32 accessor: unsigned integer of width at most 4. -/
def TLVElem.u32? : TLVElem → Option Nat
  | TLVElem.uintEl _ w v => if w ≤ 4 then some v else none
  | _ => none

/-- u16 accessor: unsigned integer of width at most 2. -/
def TLVElem.u16? : TLVElem → Option Nat
  | TLVElem.uintEl _ w v => if w ≤ 2 then some v else none
  | _ => none

/-- u8 accessor: unsigned integer of width 1. -/
def TLVElem.u8? : TLVElem → Option Nat
  | TLVElem.uintEl _ w v => if w = 1 then some v else none
  | _ => none

/-- Boolean accessor. -/
def TLVElem.bool? : TLVElem → Option Bool
  | TLVElem.boolEl _ b => some b
  | _ => none

/-- Octet-string accessor (`get_slice`). -/
def TLVElem.slice? : TLVElem → Option (List Nat)
  | TLVElem.strEl _ _ bs => some bs
  | _ => none

/-- Source `check_ctx_tag` from the TLV element interface. -/
def TLVElem.check_ctx_tag (e : TLVElem) (t : Nat) : Bool :=
  e.getTag = TLVTag.context t

/-! ## TLV writer

Modelled from the spec: the writer emits control byte, tag bytes, length
and value; integer encoders select the narrowest 2^k byte width whose
range contains the value. -/

/-- Source `w` little-endian bytes of `v`. -/
def leBytes : Nat → Nat → List Nat
  | 0, _ => []
  | w + 1, v => v % 256 :: leBytes w (v / 256)

/-- Tag-control contribution of a tag to the control byte. -/
def tagCtrlOf : TLVTag → Nat
  | TLVTag.anonymous => 0
  | TLVTag.context _ => 32

/-- Tag bytes of a tag. -/
def tagBytesOf : TLVTag → List Nat
  | TLVTag.anonymous => []
  | TLVTag.context n => [n % 256]

/-- Element type code of an unsigned integer of the given width. -/
def uintTypeOf (w : Nat) : Nat :=
  if w = 1 then 4 else if w = 2 then 5 else if w = 4 then 6 else 7

/-- The narrowest width in {1,2,4,8} whose range contains `v`. -/
def minUintWidth (v : Nat) : Nat :=
  if v < 256 then 1 else if v < 65536 then 2 else if v < 4294967296 then 4 else 8

/-- Modelled from the spec: write an unsigned integer with minimal width. -/
def tlv_uint (tag : TLVTag) (v : Nat) : List Nat :=
  let w := minUintWidth v
  (tagCtrlOf tag + uintTypeOf w) :: (tagBytesOf tag ++ leBytes w v)

/-- Modelled from the spec: write an octet string (1-byte length form when
it fits, else the 2-byte form). -/
def tlv_str (tag : TLVTag) (bs : List Nat) : List Nat :=
  if bs.length < 256 then
    (tagCtrlOf tag + 16) :: (tagBytesOf tag ++ bs.length :: bs)
  else
    (tagCtrlOf tag + 17) :: (tagBytesOf tag ++ leBytes 2 bs.length ++ bs)

/-- Modelled from the spec: write a boolean. -/
def tlv_bool (tag : TLVTag) (b : Bool) : List Nat :=
  (tagCtrlOf tag + if b then 9 else 8) :: tagBytesOf tag

/-- Element type code of a container kind. -/
def contTypeOf : ContKind → Nat
  | ContKind.structK => 21
  | ContKind.arrayK => 22
  | ContKind.listK => 23

/-- Modelled from the spec: open a container. -/
def tlv_start (k : ContKind) (tag : TLVTag) : List Nat :=
  (tagCtrlOf tag + contTypeOf k) :: tagBytesOf tag

/-- Modelled from the spec: end-of-container byte. -/
def tlv_end : List Nat := [24]

/-- Concatenate a list of lists. -/
def flatJoin {α : Type} : List (List α) → List α
  | [] => []
  | l :: ls => l ++ flatJoin ls

/-! ## Certificate records (cert/mod.rs) -/

/-- Source `DistNames`: the ordered (dn-kind, u64-value) pairs, order preserved
exactly as received (cert/mod.rs). -/
structure DistNames where
  dn : List (Nat × Nat)
deriving DecidableEq, Repr

/-- Source `BasicConstraints` (cert/mod.rs, tlvargs start = 1). -/
structure BasicConstraints where
  is_ca : Bool
  path : Option Nat
deriving DecidableEq, Repr

/-- Source `Extensions` (cert/mod.rs, tlvargs start = 1, datatype = list). -/
structure Extensions where
  basic_const : Option BasicConstraints
  key_usage : Option Nat
  ext_key_usage : Option (List Nat)
  subj_key_id : Option (List Nat)
  auth_key_id : Option (List Nat)
  future_extensions : Option (List Nat)
deriving DecidableEq, Repr

/-- Source `Cert` (cert/mod.rs, tlvargs start = 1). -/
structure Cert where
  serial_no : List Nat
  sign_algo : Nat
  issuer : DistNames
  not_before : Nat
  not_after : Nat
  subject : DistNames
  pubkey_algo : Nat
  ec_curve_id : Nat
  pubkey : List Nat
  extensions : Extensions
  signature : List Nat
deriving DecidableEq, Repr

/-! ### FromTLV: decoding, mirroring the derive macro
(matter_macro_derive/src/lib.rs, ordered mode): fields are matched
sequentially against the container children; a child whose context tag
matches the field tag is consumed by the field own decoder; otherwise
optional fields decode to `none` and required fields fail. -/

/-- Required field step of the derived ordered decoder. -/
def reqFieldD {α : Type} (tag : Nat) (get : TLVElem → Option α) :
    List TLVElem → Option (α × List TLVElem)
  | [] => none
  | x :: rest =>
    if x.check_ctx_tag tag then
      match get x with
      | none => none
      | some v => some (v, rest)
    else none

/-- Optional field step of the derived ordered decoder. -/
def optFieldD {α : Type} (tag : Nat) (get : TLVElem → Option α) :
    List TLVElem → Option (Option α × List TLVElem)
  | [] => some (none, [])
  | x :: rest =>
    if x.check_ctx_tag tag then
      match get x with
      | none => none
      | some v => some (some v, rest)
    else some (none, x :: rest)

/-- Source `DistNames::from_tlv` (hand-written in cert/mod.rs): iterate the list,
keep every context-tagged element as a (tag, u64) pair, skip elements with
other tag forms, fail if a context-tagged element is not an integer. -/
def DistNames.fromChildren : List TLVElem → Option (List (Nat × Nat))
  | [] => some []
  | t :: rest =>
    match t.getTag with
    | TLVTag.context tag =>
      match t.u64? with
      | none => none
      | some v =>
        match DistNames.fromChildren rest with
        | none => none
        | some l => some ((tag, v) :: l)
    | TLVTag.anonymous =>
      DistNames.fromChildren rest

/-- Source `DistNames::from_tlv`. -/
def DistNames.from_tlv (e : TLVElem) : Option DistNames :=
  match e with
  | TLVElem.listEl _ children =>
    match DistNames.fromChildren children with
    | none => none
    | some l => some ⟨l⟩
  | _ => none

/-- Source `BasicConstraints::from_tlv` (derived, struct, start = 1). -/
def BasicConstraints.from_tlv (e : TLVElem) : Option BasicConstraints :=
  match e with
  | TLVElem.structEl _ ch => do
    let (is_ca, r1) ← reqFieldD 1 TLVElem.bool? ch
    let (path, _) ← optFieldD 2 TLVElem.u8? r1
    some { is_ca := is_ca, path := path }
  | _ => none

/-- Element-wise u8 decoding of an array (TLVArrayOwned of u8).
Modelled from the spec: an array children are decoded in order. -/
def u8Array.fromChildren : List TLVElem → Option (List Nat)
  | [] => some []
  | t :: rest =>
    match t.u8? with
    | none => none
    | some v =>
      match u8Array.fromChildren rest with
      | none => none
      | some l => some (v :: l)

/-- TLVArrayOwned of u8: from_tlv. -/
def u8Array.from_tlv (e : TLVElem) : Option (List Nat) :=
  match e with
  | TLVElem.arrayEl _ children => u8Array.fromChildren children
  | _ => none

/-- Source `Extensions::from_tlv` (derived, list, start = 1, all fields optional). -/
def Extensions.from_tlv (e : TLVElem) : Option Extensions :=
  match e with
  | TLVElem.listEl _ ch => do
    let (basic_const, r) ← optFieldD 1 BasicConstraints.from_tlv ch
    let (key_usage, r) ← optFieldD 2 TLVElem.u16? r
    let (ext_key_usage, r) ← optFieldD 3 u8Array.from_tlv r
    let (subj_key_id, r) ← optFieldD 4 TLVElem.slice? r
    let (auth_key_id, r) ← optFieldD 5 TLVElem.slice? r
    let (future_extensions, _) ← optFieldD 6 TLVElem.slice? r
    some { basic_const := basic_const, key_usage := key_usage,
           ext_key_usage := ext_key_usage, subj_key_id := subj_key_id,
           auth_key_id := auth_key_id, future_extensions := future_extensions }
  | _ => none

/-- Source `Cert::from_tlv` (derived, struct, start = 1, all fields required). -/
def Cert.from_tlv (e : TLVElem) : Option Cert :=
  match e with
  | TLVElem.structEl _ ch => do
    let (serial_no, r) ← reqFieldD 1 TLVElem.slice? ch
    let (sign_algo, r) ← reqFieldD 2 TLVElem.u8? r
    let (issuer, r) ← reqFieldD 3 DistNames.from_tlv r
    let (not_before, r) ← reqFieldD 4 TLVElem.u32? r
    let (not_after, r) ← reqFieldD 5 TLVElem.u32? r
    let (subject, r) ← reqFieldD 6 DistNames.from_tlv r
    let (pubkey_algo, r) ← reqFieldD 7 TLVElem.u8? r
    let (ec_curve_id, r) ← reqFieldD 8 TLVElem.u8? r
    let (pubkey, r) ← reqFieldD 9 TLVElem.slice? r
    let (extensions, r) ← reqFieldD 10 Extensions.from_tlv r
    let (signature, _) ← reqFieldD 11 TLVElem.slice? r
    some { serial_no := serial_no, sign_algo := sign_algo, issuer := issuer,
           not_before := not_before, not_after := not_after, subject := subject,
           pubkey_algo := pubkey_algo, ec_curve_id := ec_curve_id,
           pubkey := pubkey, extensions := extensions, signature := signature }
  | _ => none

/-- Source `Cert::new`: parse the root TLV element and decode the certificate.
The source returns `Result<Cert, Error>`; the distinct parse-error codes
are not needed here, so failure is collapsed to `none`. -/
def Cert.new (cert_bin : List Nat) : Option Cert := do
  let root ← get_root_node cert_bin
  Cert.from_tlv root

/-! ### ToTLV: encoding, mirroring the derive macro and the hand-written
`impl ToTLV for DistNames`. -/

/-- Source `DistNames::to_tlv`: a list container of context-tagged u64 values in
stored order. -/
def DistNames.to_tlv (d : DistNames) (tag : TLVTag) : List Nat :=
  tlv_start ContKind.listK tag ++
    flatJoin (d.dn.map (fun p => tlv_uint (TLVTag.context p.1) p.2)) ++ tlv_end

/-- Source `BasicConstraints` ToTLV (derived, struct, start = 1). -/
def BasicConstraints.to_tlv (b : BasicConstraints) (tag : TLVTag) : List Nat :=
  tlv_start ContKind.structK tag ++
    tlv_bool (TLVTag.context 1) b.is_ca ++
    (match b.path with
     | none => []
     | some p => tlv_uint (TLVTag.context 2) p) ++
    tlv_end

/-- TLVArrayOwned of u8: ToTLV, an array of anonymous u8 elements. -/
def u8Array.to_tlv (l : List Nat) (tag : TLVTag) : List Nat :=
  tlv_start ContKind.arrayK tag ++
    flatJoin (l.map (fun v => tlv_uint TLVTag.anonymous v)) ++ tlv_end

/-- Source `Extensions` ToTLV (derived, list, start = 1; absent options write
nothing). -/
def Extensions.to_tlv (x : Extensions) (tag : TLVTag) : List Nat :=
  tlv_start ContKind.listK tag ++
    (match x.basic_const with
     | none => []
     | some b => b.to_tlv (TLVTag.context 1)) ++
    (match x.key_usage with
     | none => []
     | some v => tlv_uint (TLVTag.context 2) v) ++
    (match x.ext_key_usage with
     | none => []
     | some l => u8Array.to_tlv l (TLVTag.context 3)) ++
    (match x.subj_key_id with
     | none => []
     | some s => tlv_str (TLVTag.context 4) s) ++
    (match x.auth_key_id with
     | none => []
     | some s => tlv_str (TLVTag.context 5) s) ++
    (match x.future_extensions with
     | none => []
     | some s => tlv_str (TLVTag.context 6) s) ++
    tlv_end

/-- Source `Cert` ToTLV (derived, struct, start = 1). -/
def Cert.to_tlv (c : Cert) (tag : TLVTag) : List Nat :=
  tlv_start ContKind.structK tag ++
    tlv_str (TLVTag.context 1) c.serial_no ++
    tlv_uint (TLVTag.context 2) c.sign_algo ++
    c.issuer.to_tlv (TLVTag.context 3) ++
    tlv_uint (TLVTag.context 4) c.not_before ++
    tlv_uint (TLVTag.context 5) c.not_after ++
    c.subject.to_tlv (TLVTag.context 6) ++
    tlv_uint (TLVTag.context 7) c.pubkey_algo ++
    tlv_uint (TLVTag.context 8) c.ec_curve_id ++
    tlv_str (TLVTag.context 9) c.pubkey ++
    c.extensions.to_tlv (TLVTag.context 10) ++
    tlv_str (TLVTag.context 11) c.signature ++
    tlv_end

/-- Source `Cert::as_tlv`: encode under an anonymous tag (the WriteBuf capacity
is abstracted away; every certificate in the claims fits). -/
def Cert.as_tlv (c : Cert) : List Nat :=
  c.to_tlv TLVTag.anonymous

/-! ## ASN.1 emission

`Cert::encode` drives a `CertConsumer`; the calls it makes are captured
as a list of `ASN1Op` values, translated directly from cert/mod.rs.  The
`ASN1Writer` consumer itself is not among the sources; its DER output is
modelled from the spec (section 4.2) by `serASN1` below. -/

/-- One `CertConsumer` call. -/
inductive ASN1Op where
  | startSeq
  | endSeq
  | startSet
  | endSet
  | integer (bytes : List Nat)
  | utf8str (chars : List Nat)
  | bitstr (truncate : Bool) (bytes : List Nat)
  | ostr (bytes : List Nat)
  | startCompoundOstr
  | endCompoundOstr
  | boolOp (b : Bool)
  | ctxPrim (id : Nat) (bytes : List Nat)
  | startCtx (id : Nat)
  | endCtx
  | oid (bytes : List Nat)
  | utctime (epoch : Nat)
deriving DecidableEq, Repr

/-- OID 1.2.840.10045.2.1 (EC public key), cert/mod.rs. -/
def OID_PUB_KEY_ECPUBKEY : List Nat := [42, 134, 72, 206, 61, 2, 1]

/-- OID 1.2.840.10045.3.1.7 (prime256v1), cert/mod.rs. -/
def OID_EC_TYPE_PRIME256V1 : List Nat := [42, 134, 72, 206, 61, 3, 1, 7]

/-- OID 1.2.840.10045.4.3.2 (ECDSA with SHA256), cert/mod.rs. -/
def OID_ECDSA_WITH_SHA256 : List Nat := [42, 134, 72, 206, 61, 4, 3, 2]

/-- The 4-bit reversal lookup table (`LOOKUP` in cert/mod.rs). -/
def lookupRev : List Nat := [0, 8, 4, 12, 2, 10, 6, 14, 1, 9, 5, 13, 3, 11, 7, 15]

/-- Source `reverse_byte` from cert/mod.rs. -/
def reverse_byte (b : Nat) : Nat :=
  (lookupRev.getD (b % 16) 0) * 16 + lookupRev.getD (b / 16 % 16) 0

/-- Source `int_to_bitstring` from cert/mod.rs: two key-usage bytes, each with
reversed bit order. -/
def int_to_bitstring (a : Nat) : List Nat :=
  [reverse_byte (a % 256), reverse_byte (a / 256 % 256)]

/-- Source `encode_key_usage` from cert/mod.rs. -/
def encode_key_usage (key_usage : Nat) : List ASN1Op :=
  [ASN1Op.bitstr true (int_to_bitstring key_usage)]

/-- The `encoding` table of `encode_extended_key_usage` (7 entries;
entry 0 is the unused placeholder). -/
def ekuEncoding : List (List Nat) :=
  [[0, 0, 0, 0, 0, 0, 0, 0],
   [43, 6, 1, 5, 5, 7, 3, 1],
   [43, 6, 1, 5, 5, 7, 3, 2],
   [43, 6, 1, 5, 5, 7, 3, 3],
   [43, 6, 1, 5, 5, 7, 3, 4],
   [43, 6, 1, 5, 5, 7, 3, 8],
   [43, 6, 1, 5, 5, 7, 3, 9]]

/-- The loop body of `encode_extended_key_usage`: the source guards with
`t > 0 && t <= encoding.len()` and then indexes `encoding[t]`; the
out-of-bounds access at `t = encoding.len()` is modelled as `Panicked`. -/
def ekuLoop : List Nat → Except Error (List ASN1Op)
  | [] => Except.ok []
  | t :: rest =>
    if t > 0 ∧ t ≤ ekuEncoding.length then
      match ekuEncoding.get? t with
      | none => Except.error Error.Panicked
      | some e =>
        match ekuLoop rest with
        | Except.error err => Except.error err
        | Except.ok l => Except.ok (ASN1Op.oid e :: l)
    else ekuLoop rest

/-- Source `encode_extended_key_usage` from cert/mod.rs. -/
def encode_extended_key_usage (list : List Nat) : Except Error (List ASN1Op) :=
  match ekuLoop list with
  | Except.error err => Except.error err
  | Except.ok body => Except.ok ([ASN1Op.startSeq] ++ body ++ [ASN1Op.endSeq])

/-- Source `BasicConstraints::encode` from cert/mod.rs: CA flag only when true;
the path-length field is only logged. -/
def BasicConstraints.encode (b : BasicConstraints) : List ASN1Op :=
  [ASN1Op.startSeq] ++ (if b.is_ca then [ASN1Op.boolOp true] else []) ++ [ASN1Op.endSeq]

/-- Source `encode_extension_start` from cert/mod.rs. -/
def encode_extension_start (critical : Bool) (oid : List Nat) : List ASN1Op :=
  [ASN1Op.startSeq, ASN1Op.oid oid] ++
    (if critical then [ASN1Op.boolOp true] else []) ++ [ASN1Op.startCompoundOstr]

/-- Source `encode_extension_end` from cert/mod.rs. -/
def encode_extension_end : List ASN1Op := [ASN1Op.endCompoundOstr, ASN1Op.endSeq]

/-- OID 2.5.29.19 basic constraints. -/
def OID_BASIC_CONSTRAINTS : List Nat := [85, 29, 19]

/-- OID 2.5.29.15 key usage. -/
def OID_KEY_USAGE : List Nat := [85, 29, 15]

/-- OID 2.5.29.37 extended key usage. -/
def OID_EXT_KEY_USAGE : List Nat := [85, 29, 37]

/-- OID 2.5.29.14 subject key identifier. -/
def OID_SUBJ_KEY_IDENTIFIER : List Nat := [85, 29, 14]

/-- OID 2.5.29.35 authority key identifier. -/
def OID_AUTH_KEY_ID : List Nat := [85, 29, 35]

/-- Source `Extensions::encode` from cert/mod.rs.  Note the criticality flags
actually passed by the source: basic-constraints, key-usage AND
extended-key-usage are emitted critical; subject-key-id and
authority-key-id are not. -/
def Extensions.encode (x : Extensions) : Except Error (List ASN1Op) :=
  let bcOps :=
    match x.basic_const with
    | none => []
    | some t =>
      encode_extension_start true OID_BASIC_CONSTRAINTS ++ t.encode ++ encode_extension_end
  let kuOps :=
    match x.key_usage with
    | none => []
    | some t => encode_extension_start true OID_KEY_USAGE ++ encode_key_usage t ++
        encode_extension_end
  match (match x.ext_key_usage with
         | none => Except.ok []
         | some t =>
           match encode_extended_key_usage t with
           | Except.error e => Except.error e
           | Except.ok body => Except.ok
               (encode_extension_start true OID_EXT_KEY_USAGE ++ body ++
                 encode_extension_end)) with
  | Except.error e => Except.error e
  | Except.ok ekuOps =>
    let skOps :=
      match x.subj_key_id with
      | none => []
      | some t => encode_extension_start false OID_SUBJ_KEY_IDENTIFIER ++
          [ASN1Op.ostr t] ++ encode_extension_end
    let akOps :=
      match x.auth_key_id with
      | none => []
      | some t => encode_extension_start false OID_AUTH_KEY_ID ++
          [ASN1Op.startSeq, ASN1Op.ctxPrim 0 t, ASN1Op.endSeq] ++ encode_extension_end
    Except.ok ([ASN1Op.startCtx 3, ASN1Op.startSeq] ++ bcOps ++ kuOps ++ ekuOps ++
      skOps ++ akOps ++ [ASN1Op.endSeq, ASN1Op.endCtx])

/-- Upper-case hex character of a nibble (ASCII). -/
def hexChar (d : Nat) : Nat := if d < 10 then 48 + d else 55 + d

/-- Source `n`-digit upper-case hex rendering of `v` (ASCII), most significant
digit first: the behaviour of Rust `{:0nX}` formatting for n-digit-wide
values. -/
def hexStr : Nat → Nat → List Nat
  | 0, _ => []
  | n + 1, v => hexStr n (v / 16) ++ [hexChar (v % 16)]

/-- Matter DN OID 1.3.6.1.4.1.37244.1.k for dn-kind id (17..22 map to
k = 1..6), the `dn_encoding` table plus NOC-CAT of cert/mod.rs. -/
def dnOidOf (id : Nat) : List Nat :=
  [43, 6, 1, 4, 1, 130, 162, 124, 1, id - 16]

/-- Source `encode_u64_dn` from cert/mod.rs. -/
def encode_u64_dn (value : Nat) (oid : List Nat) : List ASN1Op :=
  [ASN1Op.startSet, ASN1Op.startSeq, ASN1Op.oid oid,
   ASN1Op.utf8str (hexStr 16 value), ASN1Op.endSeq, ASN1Op.endSet]

/-- Source `DistNames::encode` from cert/mod.rs: dn-kinds 17..21 use the
16-hex-digit form, NOC-CAT (22) uses the 8-hex-digit form, any other
kind is logged and skipped. -/
def DistNames.encode (d : DistNames) : List ASN1Op :=
  [ASN1Op.startSeq] ++
    flatJoin (d.dn.map (fun p =>
      if p.1 = 22 then
        [ASN1Op.startSet, ASN1Op.startSeq, ASN1Op.oid (dnOidOf 22),
         ASN1Op.utf8str (hexStr 8 p.2), ASN1Op.endSeq, ASN1Op.endSet]
      else if 17 ≤ p.1 ∧ p.1 ≤ 21 then
        encode_u64_dn p.2 (dnOidOf p.1)
      else [])) ++
    [ASN1Op.endSeq]

/-- Source `Cert::encode` from cert/mod.rs: the exact `CertConsumer` call
sequence.  Only sign-algo 1 (ECDSA-with-SHA256), pubkey-algo 1
(EC public key) and curve 1 (prime256v1) are encodable; anything else is
`Error::Invalid`.  The signature is not encoded. -/
def Cert.encode (c : Cert) : Except Error (List ASN1Op) :=
  match (if c.sign_algo = 1 then Except.ok OID_ECDSA_WITH_SHA256
         else Except.error Error.Invalid : Except Error (List Nat)) with
  | Except.error e => Except.error e
  | Except.ok signOid =>
    match (if c.pubkey_algo = 1 then Except.ok OID_PUB_KEY_ECPUBKEY
           else Except.error Error.Invalid : Except Error (List Nat)) with
    | Except.error e => Except.error e
    | Except.ok pkOid =>
      match (if c.ec_curve_id = 1 then Except.ok OID_EC_TYPE_PRIME256V1
             else Except.error Error.Invalid : Except Error (List Nat)) with
      | Except.error e => Except.error e
      | Except.ok curveOid =>
        match c.extensions.encode with
        | Except.error e => Except.error e
        | Except.ok extOps =>
          Except.ok
            ([ASN1Op.startSeq,
              ASN1Op.startCtx 0, ASN1Op.integer [2], ASN1Op.endCtx,
              ASN1Op.integer c.serial_no,
              ASN1Op.startSeq, ASN1Op.oid signOid, ASN1Op.endSeq] ++
             c.issuer.encode ++
             [ASN1Op.startSeq, ASN1Op.utctime c.not_before,
              ASN1Op.utctime c.not_after, ASN1Op.endSeq] ++
             c.subject.encode ++
             [ASN1Op.startSeq, ASN1Op.startSeq, ASN1Op.oid pkOid,
              ASN1Op.oid curveOid, ASN1Op.endSeq,
              ASN1Op.bitstr false c.pubkey, ASN1Op.endSeq] ++
             extOps ++
             [ASN1Op.endSeq])

/-! ### DER serialization of the op list

Modelled from the spec (section 4.2): scoped sequences, sets,
octet-string wrappers and context tags with deferred length; minimal
short- or long-form DER lengths; INTEGER gets a leading zero when the
high bit of the first byte is set; BIT STRING carries an unused-bits
octet and optionally truncates trailing zero bits; UTCTime is
`YYMMDDhhmmssZ` from epoch-seconds since 2000-01-01 UTC. -/

/-- Gregorian leap year. -/
def isLeap (y : Nat) : Bool :=
  (y % 4 = 0 && y % 100 ≠ 0) || y % 400 = 0

/-- Days in a year. -/
def daysInYear (y : Nat) : Nat := if isLeap y then 366 else 365

/-- Year and 0-based day-of-year from days since 2000-01-01. -/
def yearFromDays : Nat → Nat → Nat → Nat × Nat
  | 0, y, d => (y, d)
  | fuel + 1, y, d =>
    if d < daysInYear y then (y, d) else yearFromDays fuel (y + 1) (d - daysInYear y)

/-- Month lengths. -/
def monthLengths (leap : Bool) : List Nat :=
  [31, if leap then 29 else 28, 31, 30, 31, 30, 31, 31, 30, 31, 30, 31]

/-- 1-based month and day from a 0-based day-of-year. -/
def monthFromDays : List Nat → Nat → Nat → Nat × Nat
  | [], m, d => (m, d + 1)
  | ml :: rest, m, d => if d < ml then (m, d + 1) else monthFromDays rest (m + 1) (d - ml)

/-- Two ASCII decimal digits, zero padded. -/
def twoDigits (n : Nat) : List Nat := [48 + n / 10 % 10, 48 + n % 10]

/-- Modelled from the spec: `YYMMDDhhmmssZ` ASCII characters for an
epoch-seconds value relative to the Matter epoch 2000-01-01 UTC. -/
def utcTimeChars (epoch : Nat) : List Nat :=
  let days := epoch / 86400
  let rem := epoch % 86400
  let yd := yearFromDays 400 2000 days
  let md := monthFromDays (monthLengths (isLeap yd.1)) 1 yd.2
  twoDigits (yd.1 % 100) ++ twoDigits md.1 ++ twoDigits md.2 ++
    twoDigits (rem / 3600) ++ twoDigits (rem % 3600 / 60) ++ twoDigits (rem % 60) ++ [90]

/-- Minimal DER length encoding. -/
def lenEncode (n : Nat) : List Nat :=
  if n < 128 then [n]
  else if n < 256 then [129, n]
  else if n < 65536 then [130, n / 256, n % 256]
  else [131, n / 65536 % 256, n / 256 % 256, n % 256]

/-- Tag byte, DER length, content. -/
def derWrap (tagByte : Nat) (content : List Nat) : List Nat :=
  tagByte :: (lenEncode content.length ++ content)

/-- Drop trailing zero bytes. -/
def trimTrailingZeros (bs : List Nat) : List Nat :=
  (bs.reverse.dropWhile (fun b => b = 0)).reverse

/-- Number of trailing zero bits of a byte (0 for a zero byte). -/
def trailingZeroBits : Nat → Nat → Nat
  | 0, _ => 0
  | fuel + 1, b => if b % 2 = 1 ∨ b = 0 then 0 else 1 + trailingZeroBits fuel (b / 2)

/-- BIT STRING content: unused-bits octet then data, with the key-usage
truncate-trailing-zero-bits mode. -/
def bitstrContent (truncate : Bool) (bs : List Nat) : List Nat :=
  if truncate then
    let core := trimTrailingZeros bs
    match core.getLast? with
    | none => [0]
    | some lb => trailingZeroBits 8 lb :: core
  else 0 :: bs

/-- INTEGER content: a leading zero when the high bit of the first byte
is set. -/
def intContent (bs : List Nat) : List Nat :=
  match bs with
  | [] => []
  | b :: _ => if 128 ≤ b then 0 :: bs else bs

/-- DER bytes of one primitive op (`none` on scope ops). -/
def primDER : ASN1Op → Option (List Nat)
  | ASN1Op.integer bs => some (derWrap 2 (intContent bs))
  | ASN1Op.utf8str cs => some (derWrap 12 cs)
  | ASN1Op.bitstr tr bs => some (derWrap 3 (bitstrContent tr bs))
  | ASN1Op.ostr bs => some (derWrap 4 bs)
  | ASN1Op.boolOp b => some (derWrap 1 [if b then 255 else 0])
  | ASN1Op.ctxPrim id bs => some (derWrap (128 + id) bs)
  | ASN1Op.oid bs => some (derWrap 6 bs)
  | ASN1Op.utctime e => some (derWrap 23 (utcTimeChars e))
  | _ => none

/-- An open DER scope. -/
inductive FrameKind where
  | seqF
  | setF
  | ostrF
  | ctxF (id : Nat)
deriving DecidableEq, Repr

/-- Tag byte of a scope. -/
def frameTag : FrameKind → Nat
  | FrameKind.seqF => 48
  | FrameKind.setF => 49
  | FrameKind.ostrF => 4
  | FrameKind.ctxF id => 160 + id

/-- Modelled from the spec: interpret the `CertConsumer` op sequence as
the deferred-length DER writer does, with a stack of open scopes; the
result is `none` when the scopes are unbalanced. -/
def serASN1 : List ASN1Op → List (FrameKind × List Nat) → List Nat → Option (List Nat)
  | [], [], acc => some acc
  | [], _ :: _, _ => none
  | op :: ops, stack, acc =>
    match op with
    | ASN1Op.startSeq => serASN1 ops ((FrameKind.seqF, acc) :: stack) []
    | ASN1Op.startSet => serASN1 ops ((FrameKind.setF, acc) :: stack) []
    | ASN1Op.startCompoundOstr => serASN1 ops ((FrameKind.ostrF, acc) :: stack) []
    | ASN1Op.startCtx id => serASN1 ops ((FrameKind.ctxF id, acc) :: stack) []
    | ASN1Op.endSeq =>
      match stack with
      | (FrameKind.seqF, parent) :: s => serASN1 ops s (parent ++ derWrap 48 acc)
      | _ => none
    | ASN1Op.endSet =>
      match stack with
      | (FrameKind.setF, parent) :: s => serASN1 ops s (parent ++ derWrap 49 acc)
      | _ => none
    | ASN1Op.endCompoundOstr =>
      match stack with
      | (FrameKind.ostrF, parent) :: s => serASN1 ops s (parent ++ derWrap 4 acc)
      | _ => none
    | ASN1Op.endCtx =>
      match stack with
      | (FrameKind.ctxF id, parent) :: s => serASN1 ops s (parent ++ derWrap (160 + id) acc)
      | _ => none
    | _ =>
      match primDER op with
      | some bs => serASN1 ops stack (acc ++ bs)
      | none => none

/-- Source `Cert::as_asn1`: emit the certificate ops and serialize them as DER
(the fixed output buffer is abstracted away; every certificate in the
claims fits in it). -/
def Cert.as_asn1 (c : Cert) : Except Error (List Nat) :=
  match c.encode with
  | Except.error e => Except.error e
  | Except.ok ops =>
    match serASN1 ops [] [] with
    | some bs => Except.ok bs
    | none => Except.error Error.Invalid

/-! ## Chain verification (cert/mod.rs)

The ECDSA primitive is out of scope of the sources (the spec treats the
crypto as an external key-pair abstraction), so verification is a
parameter: `v pubkey msg sig = true` means the signature checks out.
`verify_msg` maps a failed check to `Error::InvalidSignature` (pinned by
the repository `test_cert_corrupted`). -/

/-- Signature-verification oracle: public key, message, signature. -/
def VerifyOracle : Type := List Nat → List Nat → List Nat → Bool

/-- Source `Cert::get_subject_key_id`. -/
def Cert.get_subject_key_id (c : Cert) : Except Error (List Nat) :=
  match c.extensions.subj_key_id with
  | some x => Except.ok x
  | none => Except.error Error.Invalid

/-- Source `Cert::is_authority`: true when this certificate authority-key-id
equals the subject-key-id of `their`; false when this certificate has no
authority-key-id; an error when `their` has no subject-key-id. -/
def Cert.is_authority (c : Cert) (their : Cert) : Except Error Bool :=
  match c.extensions.auth_key_id with
  | some our_auth_key =>
    match their.get_subject_key_id with
    | Except.error e => Except.error e
    | Except.ok their_subject => Except.ok (decide (our_auth_key = their_subject))
  | none => Except.ok false

/-- Source `CertVerifier`. -/
structure CertVerifier where
  cert : Cert
deriving DecidableEq, Repr

/-- Source `Cert::verify_chain_start`. -/
def Cert.verify_chain_start (c : Cert) : CertVerifier := ⟨c⟩

/-- Source `CertVerifier::add_cert`: authority check, DER re-encoding of the
held certificate, signature verification with the parent public key;
success anchors a new verifier at the parent. -/
def CertVerifier.add_cert (s : CertVerifier) (v : VerifyOracle) (parent : Cert) :
    Except Error CertVerifier :=
  match s.cert.is_authority parent with
  | Except.error e => Except.error e
  | Except.ok auth =>
    if auth then
      match s.cert.as_asn1 with
      | Except.error e => Except.error e
      | Except.ok asn1 =>
        if v parent.pubkey asn1 s.cert.signature then Except.ok ⟨parent⟩
        else Except.error Error.InvalidSignature
    else Except.error Error.InvalidAuthKey

/-- Source `CertVerifier::finalise`: `add_cert` against the held certificate
itself. -/
def CertVerifier.finalise (s : CertVerifier) (v : VerifyOracle) : Except Error Unit :=
  match s.add_cert v s.cert with
  | Except.error e => Except.error e
  | Except.ok _ => Except.ok ()

/-! ## Plain message header (transport/plain_hdr.rs)

The `ParseBuf` and `WriteBuf` helpers are not among the sources; their
little-endian reads and writes are modelled from the spec (truncation
errors are collapsed to `Error::Invalid`). -/

/-- Source `SessionType` from plain_hdr.rs. -/
inductive SessionType where
  | None
  | Encrypted
deriving DecidableEq, Repr

/-- Source `PlainHdr` from plain_hdr.rs. -/
structure PlainHdr where
  flags : Nat
  sess_type : SessionType
  sess_id : Nat
  ctr : Nat
deriving DecidableEq, Repr

/-- Source `PlainHdr::decode`: flags byte, 16-bit session id, one (ignored)
security-flags byte, 32-bit counter; the session type is Encrypted
exactly when the session id is non-zero. -/
def PlainHdr.decode (h : PlainHdr) (msg : List Nat) : Except Error (PlainHdr × List Nat) :=
  match readLE 1 msg with
  | none => Except.error Error.Invalid
  | some (flags, r1) =>
    match readLE 2 r1 with
    | none => Except.error Error.Invalid
    | some (sess_id, r2) =>
      match readLE 1 r2 with
      | none => Except.error Error.Invalid
      | some (_sec_flags, r3) =>
        let sess_type := if sess_id ≠ 0 then SessionType.Encrypted else SessionType.None
        match readLE 4 r3 with
        | none => Except.error Error.Invalid
        | some (ctr, r4) =>
          let h2 := { h with flags := flags, sess_id := sess_id, sess_type := sess_type, ctr := ctr }
          Except.ok (h2, r4)

/-- Source `PlainHdr::encode`: flags, session id, a literal zero security-flags
byte, counter. -/
def PlainHdr.encode (h : PlainHdr) : List Nat :=
  leBytes 1 h.flags ++ leBytes 2 h.sess_id ++ [0] ++ leBytes 4 h.ctr

/-- Source `PlainHdr::is_encrypted`. -/
def PlainHdr.is_encrypted (h : PlainHdr) : Bool :=
  h.sess_type == SessionType.Encrypted

/-! ## Exchanges and sessions (src/transport/exchange.rs, session.rs) -/

/-- Source `ExchangeRole`. -/
inductive ExchangeRole where
  | Initiator
  | Responder
deriving DecidableEq, Repr

/-- Source `Exchange`. -/
structure Exchange where
  id : Nat
  role : ExchangeRole
  pending_ack : Option Nat
deriving DecidableEq, Repr

/-- Source `Exchange::new`. -/
def Exchange.new (id : Nat) (role : ExchangeRole) : Exchange :=
  { id := id, role := role, pending_ack := none }

/-- Source `Exchange::is_match`. -/
def Exchange.is_match (e : Exchange) (id : Nat) (role : ExchangeRole) : Bool :=
  e.id == id && e.role == role

/-- Source `Exchange::ack_pending`. -/
def Exchange.ack_pending (e : Exchange) (ack_ctr : Nat) : Exchange :=
  { e with pending_ack := some ack_ctr }

/-- The heapless capacity of `Session::exchanges` (`Vec<Exchange, 4>`). -/
def sessionExchangesCap : Nat := 4

/-- Source `Session` (keys and addresses as plain data; the peer address is
modelled as a number). -/
structure Session where
  peer_addr : Option Nat
  dec_key : List Nat
  enc_key : List Nat
  session_id : Nat
  exchanges : List Exchange
deriving DecidableEq, Repr

/-- The role-selection line of `Session::get_exchange`: the exchange is
looked up under the Responder role when the peer is the initiator. -/
def peerRole (is_peer_initiator : Bool) : ExchangeRole :=
  if is_peer_initiator then ExchangeRole.Responder else ExchangeRole.Initiator

/-- Source `Session::get_exchange`: look up the exchange by (id, role); when
absent and the peer is the initiator, push a new exchange (a full table —
the heapless push failing — yields `none`); when absent otherwise,
`none`.  Returns the found exchange together with the updated session. -/
def Session.get_exchange (s : Session) (id : Nat) (is_peer_initiator : Bool) :
    Option Exchange × Session :=
  let role := peerRole is_peer_initiator
  match s.exchanges.find? (fun x => x.is_match id role) with
  | some e => (some e, s)
  | none =>
    if is_peer_initiator then
      if s.exchanges.length < sessionExchangesCap then
        let exchanges2 := s.exchanges ++ [Exchange.new id role]
        (exchanges2.find? (fun x => x.is_match id role), { s with exchanges := exchanges2 })
      else (none, s)
    else (none, s)

/-- Source `SessionMgr` (session.rs). -/
structure SessionMgr where
  sessions : List Session
deriving DecidableEq, Repr

/-! ## CASE (secure_channel/case.rs) -/

/-- Source `Case::handle_casesigma3`, translated from case.rs: the body is
`Ok(())` — it reads nothing from the message, writes nothing to the
response buffer and leaves the session table untouched. -/
def Case.handle_casesigma3 (proto_rx : List Nat) (proto_tx : List Nat)
    (sessions : SessionMgr) : Except Error Unit × SessionMgr × List Nat :=
  let _ := proto_rx
  (Except.ok (), sessions, proto_tx)

/-! ## Data-model write dispatch (data_model/core.rs)

The `Node` tree and the per-cluster handlers are not among the sources;
they are modelled from the spec: a node is a list of endpoints, each a
list of cluster ids, and the outcome of `write_attribute` on cluster `c`
of endpoint `e` for attribute `a` is an oracle parameter.  The TLV the
handler writes is abstracted into a list of events: a `dispatched` event
for each `write_attribute` call and a `status` event for each
`AttrStatus` appended. -/

/-- The IM status codes used by the write path
(interaction_model core; `Sucess` is the source spelling). -/
inductive IMStatusCode where
  | Sucess
  | Failure
  | UnsupportedEndpoint
  | UnsupportedCluster
  | UnsupportedAttribute
  | UnsupportedCommand
deriving DecidableEq, Repr

/-- Source `GenericPath`: three optional components. -/
structure GenericPath where
  endpoint : Option Nat
  cluster : Option Nat
  leaf : Option Nat
deriving DecidableEq, Repr

/-- Source `GenericPath::not_wildcard`: the concrete triple when all three
components are present. -/
def GenericPath.not_wildcard (p : GenericPath) : Option (Nat × Nat × Nat) :=
  match p.endpoint, p.cluster, p.leaf with
  | some e, some c, some l => some (e, c, l)
  | _, _, _ => none

/-- Observable effects of the write path. -/
inductive WriteEvent where
  | dispatched (endpoint : Nat) (cluster : Nat) (attr : Nat)
  | status (path : GenericPath) (code : IMStatusCode)
deriving DecidableEq, Repr

/-- Modelled from the spec: the data-model tree as (endpoint-id,
cluster-ids) pairs. -/
structure NodeModel where
  endpoints : List (Nat × List Nat)
deriving DecidableEq, Repr

/-- Modelled from the spec: `Node::get_cluster`, mapped through the
IM status conversion (UnsupportedEndpoint / UnsupportedCluster). -/
def NodeModel.get_cluster (n : NodeModel) (e c : Nat) : Except IMStatusCode Unit :=
  match n.endpoints.find? (fun p => p.1 == e) with
  | none => Except.error IMStatusCode.UnsupportedEndpoint
  | some ep => if ep.2.contains c then Except.ok () else
      Except.error IMStatusCode.UnsupportedCluster

/-- Modelled from the spec: `Node::for_each_cluster_mut` — visit every
cluster matching the possibly-wildcard endpoint/cluster components, in
tree order, with the concretized path. -/
def NodeModel.for_each_cluster (n : NodeModel) (p : GenericPath)
    (visitor : GenericPath → Nat → Nat → List WriteEvent) : List WriteEvent :=
  flatJoin (n.endpoints.map (fun ep =>
    if (match p.endpoint with | none => true | some e => e == ep.1) then
      flatJoin (ep.2.map (fun c =>
        if (match p.cluster with | none => true | some cl => cl == c) then
          visitor { p with endpoint := some ep.1, cluster := some c } ep.1 c
        else []))
    else []))

/-- Per-write outcome oracle: `wh e c a` is the result of
`write_attribute` on cluster `c` of endpoint `e` for attribute `a`. -/
def WriteOutcome : Type := Nat → Nat → Nat → Except IMStatusCode Unit

/-- Source `DataModel::handle_write_attr_data`: call the cluster handler; in
wildcard (`skip_error`) mode errors produce no status, otherwise a
status (the error, or `Sucess`) is appended. -/
def DataModel.handle_write_attr_data (wh : WriteOutcome) (e c attr : Nat)
    (path : GenericPath) (skip_error : Bool) : List WriteEvent :=
  match wh e c attr with
  | Except.error err =>
    if skip_error then [WriteEvent.dispatched e c attr]
    else [WriteEvent.dispatched e c attr, WriteEvent.status path err]
  | Except.ok _ => [WriteEvent.dispatched e c attr, WriteEvent.status path IMStatusCode.Sucess]

/-- Source `DataModel::handle_write_attr_path` from data_model/core.rs: concrete
paths dispatch to the cluster (or emit the lookup error); wildcard paths
with a wildcard cluster or attribute emit a single UnsupportedCluster /
UnsupportedAttribute status and dispatch nothing; otherwise the wildcard
endpoints are traversed in skip-error mode. -/
def DataModel.handle_write_attr_path (node : NodeModel) (wh : WriteOutcome)
    (path : GenericPath) : List WriteEvent :=
  match path.not_wildcard with
  | some ecl =>
    match node.get_cluster ecl.1 ecl.2.1 with
    | Except.ok _ => DataModel.handle_write_attr_data wh ecl.1 ecl.2.1 ecl.2.2 path false
    | Except.error e => [WriteEvent.status path e]
  | none =>
    if path.cluster.isNone || path.leaf.isNone then
      [WriteEvent.status path
        (if path.cluster.isNone then IMStatusCode.UnsupportedCluster
         else IMStatusCode.UnsupportedAttribute)]
    else
      node.for_each_cluster path (fun p e c =>
        DataModel.handle_write_attr_data wh e c (p.leaf.getD 0) p true)

/-- Test fixture NOC1_SUCCESS from cert/mod.rs (247 bytes). -/
def noc1Success : List Nat :=
  [21, 48, 1, 1, 1, 36, 2, 1, 55, 3, 36, 19, 1, 36, 21, 1, 24, 38, 4, 128, 34, 129, 39, 38, 5, 128, 37, 77, 58, 55, 6, 38, 17, 2, 92, 188, 0, 36, 21, 1, 24, 36, 7, 1, 36, 8, 1, 48, 9, 65, 4, 186, 34, 86, 67, 79, 89, 152, 50, 141, 184, 203, 63, 36, 144, 154, 150, 148, 67, 70, 103, 194, 17, 227, 128, 38, 101, 252, 101, 55, 119, 3, 37, 24, 216, 220, 133, 250, 230, 66, 231, 85, 201, 55, 204, 11, 120, 132, 61, 47, 172, 129, 136, 46, 105, 0, 165, 252, 205, 224, 173, 178, 105, 202, 115, 55, 10, 53, 1, 40, 1, 24, 36, 2, 1, 54, 3, 4, 2, 4, 1, 24, 48, 4, 20, 57, 104, 22, 30, 181, 86, 109, 211, 248, 97, 242, 149, 243, 85, 160, 251, 210, 130, 194, 41, 48, 5, 20, 206, 96, 180, 40, 150, 114, 39, 100, 129, 188, 79, 0, 120, 163, 48, 72, 254, 110, 101, 134, 24, 48, 11, 64, 2, 136, 66, 0, 111, 204, 224, 240, 108, 217, 249, 94, 228, 194, 170, 31, 87, 113, 98, 219, 107, 78, 231, 85, 63, 198, 199, 159, 248, 48, 235, 22, 110, 109, 198, 156, 11, 183, 226, 184, 227, 231, 87, 136, 123, 218, 229, 121, 57, 109, 44, 55, 178, 127, 195, 99, 47, 126, 112, 171, 90, 44, 247, 91, 24]

/-- Test fixture ICAC1_SUCCESS from cert/mod.rs (237 bytes). -/
def icac1Success : List Nat :=
  [21, 48, 1, 1, 0, 36, 2, 1, 55, 3, 36, 20, 0, 36, 21, 1, 24, 38, 4, 128, 34, 129, 39, 38, 5, 128, 37, 77, 58, 55, 6, 36, 19, 1, 36, 21, 1, 24, 36, 7, 1, 36, 8, 1, 48, 9, 65, 4, 86, 25, 119, 24, 63, 212, 255, 43, 88, 61, 233, 121, 52, 102, 223, 233, 0, 251, 109, 161, 239, 224, 204, 220, 119, 48, 192, 111, 182, 45, 255, 190, 84, 160, 149, 117, 11, 139, 7, 188, 85, 219, 156, 182, 85, 19, 8, 184, 223, 2, 227, 64, 107, 174, 52, 245, 12, 186, 201, 242, 191, 241, 231, 80, 55, 10, 53, 1, 41, 1, 24, 36, 2, 96, 48, 4, 20, 206, 96, 180, 40, 150, 114, 39, 100, 129, 188, 79, 0, 120, 163, 48, 72, 254, 110, 101, 134, 48, 5, 20, 212, 86, 147, 190, 112, 121, 244, 156, 112, 107, 7, 111, 17, 28, 109, 229, 100, 164, 68, 116, 24, 48, 11, 64, 243, 8, 190, 128, 155, 254, 245, 21, 205, 241, 217, 246, 204, 182, 247, 41, 81, 91, 33, 155, 230, 223, 212, 116, 33, 162, 208, 148, 100, 89, 175, 253, 78, 212, 7, 69, 207, 140, 45, 129, 249, 64, 104, 70, 68, 43, 164, 19, 126, 114, 138, 79, 104, 238, 20, 226, 88, 118, 105, 56, 12, 92, 31, 171, 24]

/-- Test fixture NOC1_AUTH_KEY_FAIL from cert/mod.rs (247 bytes). -/
def noc1AuthKeyFail : List Nat :=
  [21, 48, 1, 1, 1, 36, 2, 1, 55, 3, 36, 19, 1, 36, 21, 1, 24, 38, 4, 128, 34, 129, 39, 38, 5, 128, 37, 77, 58, 55, 6, 38, 17, 2, 92, 188, 0, 36, 21, 1, 24, 36, 7, 1, 36, 8, 1, 48, 9, 65, 4, 186, 34, 86, 67, 79, 89, 152, 50, 141, 184, 203, 63, 36, 144, 154, 150, 148, 67, 70, 103, 194, 17, 227, 128, 38, 101, 252, 101, 55, 119, 3, 37, 24, 216, 220, 133, 250, 230, 66, 231, 85, 201, 55, 204, 11, 120, 132, 61, 47, 172, 129, 136, 46, 105, 0, 165, 252, 205, 224, 173, 178, 105, 202, 115, 55, 10, 53, 1, 40, 1, 24, 36, 2, 1, 54, 3, 4, 2, 4, 1, 24, 48, 4, 20, 57, 104, 22, 30, 181, 86, 109, 211, 248, 97, 242, 149, 243, 85, 160, 251, 210, 130, 194, 41, 48, 5, 20, 206, 97, 180, 40, 150, 114, 39, 100, 129, 188, 79, 0, 120, 163, 48, 72, 254, 110, 101, 134, 24, 48, 11, 64, 2, 136, 66, 0, 111, 204, 224, 240, 108, 217, 249, 94, 228, 194, 170, 31, 87, 113, 98, 219, 107, 78, 231, 85, 63, 198, 199, 159, 248, 48, 235, 22, 110, 109, 198, 156, 11, 183, 226, 184, 227, 231, 87, 136, 123, 218, 229, 121, 57, 109, 44, 55, 178, 127, 195, 99, 47, 126, 112, 171, 90, 44, 247, 91, 24]

/-- Test fixture NOC1_CORRUPT_CERT from cert/mod.rs (247 bytes). -/
def noc1CorruptCert : List Nat :=
  [21, 48, 1, 1, 1, 36, 2, 1, 55, 3, 36, 19, 1, 36, 21, 1, 24, 38, 4, 128, 34, 129, 39, 38, 5, 128, 37, 77, 58, 55, 6, 38, 17, 2, 92, 188, 0, 36, 21, 1, 24, 36, 7, 1, 36, 8, 1, 48, 9, 65, 4, 186, 35, 86, 67, 79, 89, 152, 50, 141, 184, 203, 63, 36, 144, 154, 150, 148, 67, 70, 103, 194, 17, 227, 128, 38, 101, 252, 101, 55, 119, 3, 37, 24, 216, 220, 133, 250, 230, 66, 231, 85, 201, 55, 204, 11, 120, 132, 61, 47, 172, 129, 136, 46, 105, 0, 165, 252, 205, 224, 173, 178, 105, 202, 115, 55, 10, 53, 1, 40, 1, 24, 36, 2, 1, 54, 3, 4, 2, 4, 1, 24, 48, 4, 20, 57, 104, 22, 30, 181, 86, 109, 211, 248, 97, 242, 149, 243, 85, 160, 251, 210, 130, 194, 41, 48, 5, 20, 206, 96, 180, 40, 150, 114, 39, 100, 129, 188, 79, 0, 120, 163, 48, 72, 254, 110, 101, 134, 24, 48, 11, 64, 2, 136, 66, 0, 111, 204, 224, 240, 108, 217, 249, 94, 228, 194, 170, 31, 87, 113, 98, 219, 107, 78, 231, 85, 63, 198, 199, 159, 248, 48, 235, 22, 110, 109, 198, 156, 11, 183, 226, 184, 227, 231, 87, 136, 123, 218, 229, 121, 57, 109, 44, 55, 178, 127, 195, 99, 47, 126, 112, 171, 90, 44, 247, 91, 24]

/-- Test fixture RCA1_SUCCESS from cert/mod.rs (237 bytes). -/
def rca1Success : List Nat :=
  [21, 48, 1, 1, 0, 36, 2, 1, 55, 3, 36, 20, 0, 36, 21, 1, 24, 38, 4, 128, 34, 129, 39, 38, 5, 128, 37, 77, 58, 55, 6, 36, 20, 0, 36, 21, 1, 24, 36, 7, 1, 36, 8, 1, 48, 9, 65, 4, 109, 112, 126, 75, 152, 246, 43, 171, 68, 214, 254, 163, 46, 57, 216, 195, 0, 160, 14, 168, 108, 131, 255, 105, 13, 232, 66, 1, 235, 13, 170, 104, 93, 203, 151, 2, 128, 29, 168, 80, 2, 46, 90, 162, 90, 46, 81, 38, 4, 210, 57, 98, 205, 130, 56, 99, 40, 191, 21, 28, 166, 39, 224, 215, 55, 10, 53, 1, 41, 1, 24, 36, 2, 96, 48, 4, 20, 212, 86, 147, 190, 112, 121, 244, 156, 112, 107, 7, 111, 17, 28, 109, 229, 100, 164, 68, 116, 48, 5, 20, 212, 86, 147, 190, 112, 121, 244, 156, 112, 107, 7, 111, 17, 28, 109, 229, 100, 164, 68, 116, 24, 48, 11, 64, 3, 13, 119, 225, 158, 234, 156, 5, 92, 204, 71, 232, 179, 24, 26, 209, 116, 238, 198, 46, 161, 32, 22, 189, 32, 180, 61, 172, 36, 190, 23, 249, 14, 183, 154, 152, 200, 188, 106, 206, 153, 42, 46, 99, 76, 118, 6, 69, 147, 211, 124, 4, 0, 228, 199, 120, 233, 131, 91, 12, 51, 97, 92, 46, 24]

/-- Test fixture ASN1_INPUT1 from cert/mod.rs (237 bytes). -/
def asn1Input1 : List Nat :=
  [21, 48, 1, 1, 0, 36, 2, 1, 55, 3, 36, 20, 0, 36, 21, 3, 24, 38, 4, 128, 34, 129, 39, 38, 5, 128, 37, 77, 58, 55, 6, 36, 19, 1, 36, 21, 3, 24, 36, 7, 1, 36, 8, 1, 48, 9, 65, 4, 105, 218, 233, 66, 136, 207, 100, 148, 45, 213, 10, 116, 45, 80, 232, 94, 190, 21, 83, 36, 229, 197, 107, 229, 127, 193, 65, 17, 33, 221, 70, 163, 13, 99, 195, 227, 144, 122, 105, 100, 221, 102, 120, 16, 166, 200, 15, 253, 182, 242, 155, 136, 80, 147, 119, 158, 247, 180, 218, 148, 17, 51, 30, 254, 55, 10, 53, 1, 41, 1, 24, 36, 2, 96, 48, 4, 20, 223, 251, 121, 241, 43, 191, 104, 24, 89, 127, 247, 232, 175, 136, 145, 28, 114, 50, 247, 82, 48, 5, 20, 237, 49, 94, 26, 183, 185, 122, 202, 4, 121, 93, 130, 87, 122, 215, 10, 117, 208, 219, 122, 24, 48, 11, 64, 229, 212, 230, 14, 152, 98, 47, 170, 89, 224, 40, 89, 194, 212, 205, 52, 133, 127, 147, 190, 20, 53, 163, 118, 138, 201, 47, 89, 57, 160, 176, 117, 232, 142, 17, 169, 193, 158, 170, 171, 160, 219, 180, 121, 99, 252, 2, 3, 39, 37, 172, 33, 111, 239, 39, 171, 15, 144, 9, 153, 5, 168, 96, 216, 24]

/-- Test fixture ASN1_INPUT2 from cert/mod.rs (247 bytes). -/
def asn1Input2 : List Nat :=
  [21, 48, 1, 1, 1, 36, 2, 1, 55, 3, 36, 19, 1, 36, 21, 3, 24, 38, 4, 128, 34, 129, 39, 38, 5, 128, 37, 77, 58, 55, 6, 38, 17, 105, 182, 1, 0, 36, 21, 3, 24, 36, 7, 1, 36, 8, 1, 48, 9, 65, 4, 147, 4, 198, 196, 225, 188, 154, 200, 245, 179, 127, 131, 214, 127, 121, 197, 53, 220, 127, 172, 135, 202, 205, 8, 128, 74, 85, 96, 128, 9, 211, 155, 74, 200, 231, 123, 77, 92, 130, 136, 36, 223, 28, 253, 239, 180, 188, 183, 47, 54, 247, 43, 178, 204, 20, 105, 99, 204, 137, 210, 116, 63, 209, 152, 55, 10, 53, 1, 40, 1, 24, 36, 2, 1, 54, 3, 4, 2, 4, 1, 24, 48, 4, 20, 156, 231, 217, 168, 107, 248, 113, 250, 8, 16, 163, 242, 58, 149, 48, 177, 158, 174, 196, 44, 48, 5, 20, 223, 251, 121, 241, 43, 191, 104, 24, 89, 127, 247, 232, 175, 136, 145, 28, 114, 50, 247, 82, 24, 48, 11, 64, 207, 1, 55, 101, 214, 138, 202, 216, 51, 159, 15, 79, 213, 237, 72, 66, 145, 202, 171, 247, 174, 225, 59, 43, 239, 159, 67, 90, 150, 224, 165, 56, 142, 57, 208, 32, 138, 12, 146, 43, 33, 125, 245, 108, 29, 101, 108, 15, 209, 232, 85, 20, 94, 39, 253, 164, 172, 249, 147, 219, 41, 73, 170, 113, 24]

/-- Test fixture ASN1_OUTPUT1 from cert/mod.rs (388 bytes). -/
def asn1Output1 : List Nat :=
  [48, 130, 1, 128, 160, 3, 2, 1, 2, 2, 1, 0, 48, 10, 6, 8, 42, 134, 72, 206, 61, 4, 3, 2, 48, 68, 49, 32, 48, 30, 6, 10, 43, 6, 1, 4, 1, 130, 162, 124, 1, 4, 12, 16, 48, 48, 48, 48, 48, 48, 48, 48, 48, 48, 48, 48, 48, 48, 48, 48, 49, 32, 48, 30, 6, 10, 43, 6, 1, 4, 1, 130, 162, 124, 1, 5, 12, 16, 48, 48, 48, 48, 48, 48, 48, 48, 48, 48, 48, 48, 48, 48, 48, 51, 48, 30, 23, 13, 50, 49, 48, 49, 48, 49, 48, 48, 48, 48, 48, 48, 90, 23, 13, 51, 48, 49, 50, 51, 48, 48, 48, 48, 48, 48, 48, 90, 48, 68, 49, 32, 48, 30, 6, 10, 43, 6, 1, 4, 1, 130, 162, 124, 1, 3, 12, 16, 48, 48, 48, 48, 48, 48, 48, 48, 48, 48, 48, 48, 48, 48, 48, 49, 49, 32, 48, 30, 6, 10, 43, 6, 1, 4, 1, 130, 162, 124, 1, 5, 12, 16, 48, 48, 48, 48, 48, 48, 48, 48, 48, 48, 48, 48, 48, 48, 48, 51, 48, 89, 48, 19, 6, 7, 42, 134, 72, 206, 61, 2, 1, 6, 8, 42, 134, 72, 206, 61, 3, 1, 7, 3, 66, 0, 4, 105, 218, 233, 66, 136, 207, 100, 148, 45, 213, 10, 116, 45, 80, 232, 94, 190, 21, 83, 36, 229, 197, 107, 229, 127, 193, 65, 17, 33, 221, 70, 163, 13, 99, 195, 227, 144, 122, 105, 100, 221, 102, 120, 16, 166, 200, 15, 253, 182, 242, 155, 136, 80, 147, 119, 158, 247, 180, 218, 148, 17, 51, 30, 254, 163, 99, 48, 97, 48, 15, 6, 3, 85, 29, 19, 1, 1, 255, 4, 5, 48, 3, 1, 1, 255, 48, 14, 6, 3, 85, 29, 15, 1, 1, 255, 4, 4, 3, 2, 1, 6, 48, 29, 6, 3, 85, 29, 14, 4, 22, 4, 20, 223, 251, 121, 241, 43, 191, 104, 24, 89, 127, 247, 232, 175, 136, 145, 28, 114, 50, 247, 82, 48, 31, 6, 3, 85, 29, 35, 4, 24, 48, 22, 128, 20, 237, 49, 94, 26, 183, 185, 122, 202, 4, 121, 93, 130, 87, 122, 215, 10, 117, 208, 219, 122]

/-- Test fixture ASN1_OUTPUT2 from cert/mod.rs (421 bytes). -/
def asn1Output2 : List Nat :=
  [48, 130, 1, 161, 160, 3, 2, 1, 2, 2, 1, 1, 48, 10, 6, 8, 42, 134, 72, 206, 61, 4, 3, 2, 48, 68, 49, 32, 48, 30, 6, 10, 43, 6, 1, 4, 1, 130, 162, 124, 1, 3, 12, 16, 48, 48, 48, 48, 48, 48, 48, 48, 48, 48, 48, 48, 48, 48, 48, 49, 49, 32, 48, 30, 6, 10, 43, 6, 1, 4, 1, 130, 162, 124, 1, 5, 12, 16, 48, 48, 48, 48, 48, 48, 48, 48, 48, 48, 48, 48, 48, 48, 48, 51, 48, 30, 23, 13, 50, 49, 48, 49, 48, 49, 48, 48, 48, 48, 48, 48, 90, 23, 13, 51, 48, 49, 50, 51, 48, 48, 48, 48, 48, 48, 48, 90, 48, 68, 49, 32, 48, 30, 6, 10, 43, 6, 1, 4, 1, 130, 162, 124, 1, 1, 12, 16, 48, 48, 48, 48, 48, 48, 48, 48, 48, 48, 48, 49, 66, 54, 54, 57, 49, 32, 48, 30, 6, 10, 43, 6, 1, 4, 1, 130, 162, 124, 1, 5, 12, 16, 48, 48, 48, 48, 48, 48, 48, 48, 48, 48, 48, 48, 48, 48, 48, 51, 48, 89, 48, 19, 6, 7, 42, 134, 72, 206, 61, 2, 1, 6, 8, 42, 134, 72, 206, 61, 3, 1, 7, 3, 66, 0, 4, 147, 4, 198, 196, 225, 188, 154, 200, 245, 179, 127, 131, 214, 127, 121, 197, 53, 220, 127, 172, 135, 202, 205, 8, 128, 74, 85, 96, 128, 9, 211, 155, 74, 200, 231, 123, 77, 92, 130, 136, 36, 223, 28, 253, 239, 180, 188, 183, 47, 54, 247, 43, 178, 204, 20, 105, 99, 204, 137, 210, 116, 63, 209, 152, 163, 129, 131, 48, 129, 128, 48, 12, 6, 3, 85, 29, 19, 1, 1, 255, 4, 2, 48, 0, 48, 14, 6, 3, 85, 29, 15, 1, 1, 255, 4, 4, 3, 2, 7, 128, 48, 32, 6, 3, 85, 29, 37, 1, 1, 255, 4, 22, 48, 20, 6, 8, 43, 6, 1, 5, 5, 7, 3, 2, 6, 8, 43, 6, 1, 5, 5, 7, 3, 1, 48, 29, 6, 3, 85, 29, 14, 4, 22, 4, 20, 156, 231, 217, 168, 107, 248, 113, 250, 8, 16, 163, 242, 58, 149, 48, 177, 158, 174, 196, 44, 48, 31, 6, 3, 85, 29, 35, 4, 24, 48, 22, 128, 20, 223, 251, 121, 241, 43, 191, 104, 24, 89, 127, 247, 232, 175, 136, 145, 28, 114, 50, 247, 82]

/-- The ICAC1 fixture with the first issuer DN value widened from the
1-byte to the 2-byte unsigned encoding (same value, non-minimal width). -/
def icac1Widened : List Nat :=
  icac1Success.take 10 ++ [37, 20, 0, 0] ++ icac1Success.drop 13

/-- A fallback certificate value (all fields empty/zero). -/
def emptyCert : Cert :=
  { serial_no := [], sign_algo := 0, issuer := ⟨[]⟩, not_before := 0,
    not_after := 0, subject := ⟨[]⟩, pubkey_algo := 0, ec_curve_id := 0,
    pubkey := [],
    extensions := { basic_const := none, key_usage := none, ext_key_usage := none,
                    subj_key_id := none, auth_key_id := none, future_extensions := none },
    signature := [] }

/-- The parsed NOC1 fixture certificate. -/
def nocCert : Cert := (Cert.new noc1Success).getD emptyCert

/-- The parsed ICAC1 fixture certificate. -/
def icacCert : Cert := (Cert.new icac1Success).getD emptyCert

/-- The parsed RCA1 fixture certificate. -/
def rcaCert : Cert := (Cert.new rca1Success).getD emptyCert

/-- A verification oracle that accepts every signature. -/
def alwaysVerify : VerifyOracle := fun _ _ _ => true

/-- A verification oracle that rejects every signature. -/
def neverVerify : VerifyOracle := fun _ _ _ => false

/-- The DER tbsCertificate bytes of the NOC1 fixture. -/
def nocDer : List Nat := (nocCert.as_asn1.toOption).getD []

/-- The subject-key-id of the ICAC1 fixture. -/
def icacSubj : List Nat := (icacCert.extensions.subj_key_id).getD []

/-- Written from the spec words (section 4.3), for comparison with the
code: a certificate is self-signed under oracle `v` when its own
authority-key-id equals its own subject-key-id and its signature over
its DER tbsCertificate verifies under its own public key. -/
def specSelfSigned (v : VerifyOracle) (c : Cert) : Prop :=
  c.extensions.auth_key_id.isSome = true ∧
  c.extensions.auth_key_id = c.extensions.subj_key_id ∧
  ∃ der, c.as_asn1 = Except.ok der ∧ v c.pubkey der c.signature = true

/-- A small certificate carrying an authority-key-id. -/
def leafCx : Cert :=
  { serial_no := [1], sign_algo := 1, issuer := ⟨[]⟩, not_before := 0,
    not_after := 0, subject := ⟨[]⟩, pubkey_algo := 1, ec_curve_id := 1,
    pubkey := [4],
    extensions := { basic_const := none, key_usage := none, ext_key_usage := none,
                    subj_key_id := none, auth_key_id := some [1, 2],
                    future_extensions := none },
    signature := [9] }

/-- A small certificate carrying no subject-key-id. -/
def parentCx : Cert :=
  { serial_no := [2], sign_algo := 1, issuer := ⟨[]⟩, not_before := 0,
    not_after := 0, subject := ⟨[]⟩, pubkey_algo := 1, ec_curve_id := 1,
    pubkey := [4],
    extensions := { basic_const := none, key_usage := none, ext_key_usage := none,
                    subj_key_id := none, auth_key_id := none,
                    future_extensions := none },
    signature := [9] }

/-- An extensions value with every extension present. -/
def extsAll : Extensions :=
  { basic_const := some { is_ca := true, path := none }, key_usage := some 1,
    ext_key_usage := some [2, 1], subj_key_id := some [1, 2, 3],
    auth_key_id := some [4, 5, 6], future_extensions := none }

/-- The op sequence `extsAll` encodes to. -/
def extsAllOps : List ASN1Op := (Extensions.encode extsAll).toOption.getD []

/-- The DER tbsCertificate bytes of the ICAC1 fixture. -/
def icacDer : List Nat := (icacCert.as_asn1.toOption).getD []

/-- The subject-key-id of the RCA1 fixture. -/
def rcaSubj : List Nat := (rcaCert.extensions.subj_key_id).getD []

/-- The DER tbsCertificate bytes of the RCA1 fixture. -/
def rcaDer : List Nat := (rcaCert.as_asn1.toOption).getD []

/-- A session with no exchanges. -/
def sessEmpty : Session :=
  { peer_addr := none, dec_key := [], enc_key := [], session_id := 0, exchanges := [] }

/-- A session holding one responder exchange with id 5. -/
def sessOne : Session :=
  { sessEmpty with exchanges := [Exchange.new 5 ExchangeRole.Responder] }

/-- A session at the exchange capacity. -/
def sessFull : Session :=
  { sessEmpty with exchanges :=
      [Exchange.new 1 ExchangeRole.Responder, Exchange.new 2 ExchangeRole.Responder,
       Exchange.new 3 ExchangeRole.Responder, Exchange.new 4 ExchangeRole.Responder] }

/-- A one-endpoint, one-cluster node. -/
def nodeW : NodeModel := { endpoints := [(0, [1])] }

/-- A write handler that accepts everything. -/
def whOK : WriteOutcome := fun _ _ _ => Except.ok ()

/-- A write path with a wildcard cluster. -/
def pathWC : GenericPath := { endpoint := some 0, cluster := none, leaf := some 2 }

/-! ## Theorems -/

/-- C1: the claim states that every byte string that parses as a
certificate re-encodes byte-for-byte.  Counterexample: `icac1Widened`
(the ICAC1 fixture with one DN integer stored in the 2-byte instead of
the 1-byte unsigned form) parses to the very same certificate record,
but re-encoding produces the minimal-width form `icac1Success`, not the
input. -/
theorem c1_counterexample :
    Cert.new icac1Widened = some icacCert ∧
    (Cert.new icac1Widened).map Cert.as_tlv = some icac1Success ∧
    icac1Success ≠ icac1Widened := by
  refine ⟨by decide, by decide, by decide⟩

/-- C1 (amended): re-encoding a parsed certificate yields the canonical
minimal-width TLV encoding, so the round trip is byte-for-byte exactly
on canonically encoded inputs — in particular on the repository three
chain fixtures (`test_tlv_conversions`). -/
theorem c1_round_trip :
    (Cert.new noc1Success).map Cert.as_tlv = some noc1Success ∧
    (Cert.new icac1Success).map Cert.as_tlv = some icac1Success ∧
    (Cert.new rca1Success).map Cert.as_tlv = some rca1Success := by
  refine ⟨by decide, by decide, by decide⟩

/-- C4: parsing the 237-byte Matter-TLV root-CA fixture ASN1_INPUT1 and
emitting DER succeeds and produces exactly the 388-byte fixture
ASN1_OUTPUT1. -/
theorem c4_asn1_encode :
    asn1Input1.length = 237 ∧
    (Cert.new asn1Input1).map Cert.as_asn1 = some (Except.ok asn1Output1) ∧
    asn1Output1.length = 388 := by
  refine ⟨by decide, by decide, by decide⟩

/-- C5: the claim describes full Sigma3 processing (decrypt, verify
signature and chain, derive keys, install the session).  The source body of
`Case::handle_casesigma3` is `Ok(())`: it succeeds unconditionally,
writes nothing and leaves the session table unchanged, for every input. -/
theorem c5_sigma3_stub :
    ∀ (proto_rx proto_tx : List Nat) (sessions : SessionMgr),
      Case.handle_casesigma3 proto_rx proto_tx sessions =
        (Except.ok (), sessions, proto_tx) := by
  intro _ _ _
  rfl

/-- C7: the claim states every out-of-range extended-key-usage index is
skipped and the encoding never fails.  Indices 1..6 do map to their OIDs
in list order, and 0 and indices at least 8 are skipped, but index 7
passes the source `t <= encoding.len()` guard and the access
`encoding[7]` to the 7-entry table is out of bounds: a panic, modelled
as `Error.Panicked`. -/
theorem c7_eku_boundary :
    encode_extended_key_usage [7] = Except.error Error.Panicked ∧
    encode_extended_key_usage [0, 8, 255] =
      Except.ok [ASN1Op.startSeq, ASN1Op.endSeq] ∧
    encode_extended_key_usage [1, 2, 3, 4, 5, 6] =
      Except.ok [ASN1Op.startSeq,
        ASN1Op.oid [43, 6, 1, 5, 5, 7, 3, 1], ASN1Op.oid [43, 6, 1, 5, 5, 7, 3, 2],
        ASN1Op.oid [43, 6, 1, 5, 5, 7, 3, 3], ASN1Op.oid [43, 6, 1, 5, 5, 7, 3, 4],
        ASN1Op.oid [43, 6, 1, 5, 5, 7, 3, 8], ASN1Op.oid [43, 6, 1, 5, 5, 7, 3, 9],
        ASN1Op.endSeq] := by
  refine ⟨by decide, by decide, by decide⟩

/-- C10: after every successful decode the session type is Encrypted
exactly when the decoded session id is non-zero (and `is_encrypted`
agrees), and the encoder always writes a zero security-flags byte (the
fourth byte) regardless of the header fields. -/
theorem c10_plain_hdr :
    (∀ (h : PlainHdr) (msg : List Nat) (h2 : PlainHdr) (rest : List Nat),
      h.decode msg = Except.ok (h2, rest) →
        (h2.sess_type = SessionType.Encrypted ↔ h2.sess_id ≠ 0) ∧
        (h2.is_encrypted = true ↔ h2.sess_id ≠ 0)) ∧
    (∀ h : PlainHdr, (PlainHdr.encode h).get? 3 = some 0) := by
  constructor
  · intro h msg h2 rest hdec
    simp only [PlainHdr.decode] at hdec
    split at hdec
    · exact absurd hdec (by simp)
    rename_i flags r1 heq1
    split at hdec
    · exact absurd hdec (by simp)
    rename_i sid r2 heq2
    split at hdec
    · exact absurd hdec (by simp)
    rename_i sec r3 heq3
    split at hdec
    · exact absurd hdec (by simp)
    rename_i ctr r4 heq4
    simp only [Except.ok.injEq, Prod.mk.injEq] at hdec
    obtain ⟨hh2, -⟩ := hdec
    subst hh2
    by_cases hz : sid = 0
    · subst hz
      simp [PlainHdr.is_encrypted]
    · simp [PlainHdr.is_encrypted, hz]
  · intro h
    rfl

/-- C10 witness: the decode part of `c10_plain_hdr` at a concrete
message with session id 1. -/
theorem c10_witness :
    ((PlainHdr.mk 7 SessionType.Encrypted 1 1).sess_type = SessionType.Encrypted ↔
      (PlainHdr.mk 7 SessionType.Encrypted 1 1).sess_id ≠ 0) ∧
    ((PlainHdr.mk 7 SessionType.Encrypted 1 1).is_encrypted = true ↔
      (PlainHdr.mk 7 SessionType.Encrypted 1 1).sess_id ≠ 0) :=
  c10_plain_hdr.1 (PlainHdr.mk 0 SessionType.None 0 0) [7, 1, 0, 9, 1, 0, 0, 0]
    (PlainHdr.mk 7 SessionType.Encrypted 1 1) [] (by decide)

/-- Source `find?` over an append when the first part has no hit. -/
theorem find?_append_none {α : Type} (p : α → Bool) :
    ∀ (l1 l2 : List α), l1.find? p = none → (l1 ++ l2).find? p = l2.find? p := by
  intro l1 l2 h
  induction l1 with
  | nil => rfl
  | cons a l ih =>
    rw [List.cons_append]
    cases hp : p a with
    | true =>
      rw [List.find?_cons_of_pos _ hp] at h
      exact absurd h (by simp)
    | false =>
      rw [List.find?_cons_of_neg _ (by simp [hp])] at h
      rw [List.find?_cons_of_neg _ (by simp [hp])]
      exact ih h

/-- C9: `Session::get_exchange` behaviour, by cases: an existing
(id, role) match is returned with the session unchanged; with no match
and the peer as initiator, a fresh Responder exchange with that id is
appended and returned unless the table is at capacity, in which case the
lookup fails and nothing is created; with no match and the peer not the
initiator, nothing is created and the lookup fails. -/
theorem c9_get_exchange :
    ∀ (s : Session) (id : Nat) (ipi : Bool),
      (∀ e : Exchange,
        s.exchanges.find? (fun x => x.is_match id (peerRole ipi)) = some e →
        s.get_exchange id ipi = (some e, s)) ∧
      (s.exchanges.find? (fun x => x.is_match id (peerRole ipi)) = none → ipi = true →
        s.exchanges.length < sessionExchangesCap →
        s.get_exchange id ipi =
          (some (Exchange.new id ExchangeRole.Responder),
           { s with exchanges := s.exchanges ++ [Exchange.new id ExchangeRole.Responder] })) ∧
      (s.exchanges.find? (fun x => x.is_match id (peerRole ipi)) = none → ipi = true →
        sessionExchangesCap ≤ s.exchanges.length →
        s.get_exchange id ipi = (none, s)) ∧
      (s.exchanges.find? (fun x => x.is_match id (peerRole ipi)) = none → ipi = false →
        s.get_exchange id ipi = (none, s)) := by
  intro s id ipi
  refine ⟨?_, ?_, ?_, ?_⟩
  · intro e he
    simp only [Session.get_exchange]
    rw [he]
  · intro hn hi hlen
    subst hi
    simp only [Session.get_exchange, peerRole, if_true] at hn ⊢
    rw [hn]
    simp only [if_pos hlen, if_true]
    rw [find?_append_none _ _ _ hn]
    rw [List.find?_cons_of_pos _ (by simp [Exchange.is_match, Exchange.new])]
  · intro hn hi hlen
    subst hi
    simp only [Session.get_exchange, peerRole, if_true] at hn ⊢
    rw [hn]
    rw [if_neg (by omega)]
  · intro hn hi
    subst hi
    simp only [Session.get_exchange, peerRole, if_false, Bool.false_eq_true] at hn ⊢
    rw [hn]

/-- C9 witness: the four cases of `c9_get_exchange` at concrete
sessions. -/
theorem c9_witness :
    sessOne.get_exchange 5 true = (some (Exchange.new 5 ExchangeRole.Responder), sessOne) ∧
    sessEmpty.get_exchange 9 true =
      (some (Exchange.new 9 ExchangeRole.Responder),
       { sessEmpty with exchanges := [Exchange.new 9 ExchangeRole.Responder] }) ∧
    sessFull.get_exchange 9 true = (none, sessFull) ∧
    sessOne.get_exchange 5 false = (none, sessOne) :=
  ⟨(c9_get_exchange sessOne 5 true).1 (Exchange.new 5 ExchangeRole.Responder) (by decide),
   (c9_get_exchange sessEmpty 9 true).2.1 (by decide) rfl (by decide),
   (c9_get_exchange sessFull 9 true).2.2.1 (by decide) rfl (by decide),
   (c9_get_exchange sessOne 5 false).2.2.2 (by decide) rfl⟩

/-- C8: a write request whose path has a wildcard (absent) cluster or a
wildcard (absent) attribute is never dispatched to a cluster handler; a
single AttrStatus is emitted — UnsupportedCluster when the cluster is
wildcard, UnsupportedAttribute when only the attribute is. -/
theorem c8_write_wildcard :
    ∀ (node : NodeModel) (wh : WriteOutcome) (path : GenericPath),
      path.cluster = none ∨ path.leaf = none →
      DataModel.handle_write_attr_path node wh path =
        [WriteEvent.status path
          (if path.cluster = none then IMStatusCode.UnsupportedCluster
           else IMStatusCode.UnsupportedAttribute)] ∧
      (∀ e c a, WriteEvent.dispatched e c a ∉
        DataModel.handle_write_attr_path node wh path) := by
  intro node wh path h
  have hnw : path.not_wildcard = none := by
    rcases path with ⟨pe, pc, pl⟩
    rcases h with h | h
    · simp only at h
      subst h
      cases pe <;> cases pl <;> rfl
    · simp only at h
      subst h
      cases pe <;> cases pc <;> rfl
  have hcond : (path.cluster.isNone || path.leaf.isNone) = true := by
    rcases h with h | h <;> simp [h]
  have hmain : DataModel.handle_write_attr_path node wh path =
      [WriteEvent.status path
        (if path.cluster = none then IMStatusCode.UnsupportedCluster
         else IMStatusCode.UnsupportedAttribute)] := by
    simp only [DataModel.handle_write_attr_path, hnw]
    rw [if_pos hcond]
    by_cases hc : path.cluster = none <;> simp [hc]
  refine ⟨hmain, ?_⟩
  intro e c a hmem
  rw [hmain] at hmem
  simp at hmem

/-- C8 witness: `c8_write_wildcard` at a concrete node and a path whose
cluster is wildcard. -/
theorem c8_witness :
    DataModel.handle_write_attr_path nodeW whOK pathWC =
      [WriteEvent.status pathWC
        (if pathWC.cluster = none then IMStatusCode.UnsupportedCluster
         else IMStatusCode.UnsupportedAttribute)] ∧
    (∀ e c a, WriteEvent.dispatched e c a ∉
      DataModel.handle_write_attr_path nodeW whOK pathWC) :=
  c8_write_wildcard nodeW whOK pathWC (Or.inl rfl)

/-- An infix of the left part is an infix of the append. -/
theorem infix_inl {α : Type} {needle a : List α} (b : List α) (h : needle <:+: a) :
    needle <:+: a ++ b :=
  h.trans ⟨[], b, by simp⟩

/-- An infix of the right part is an infix of the append. -/
theorem infix_inr {α : Type} {needle b : List α} (a : List α) (h : needle <:+: b) :
    needle <:+: a ++ b :=
  h.trans ⟨a, [], by simp⟩

/-- C6: the claim states that extended-key-usage is emitted without the
BOOLEAN criticality marker.  Counterexample: the parsed ASN1_INPUT2
fixture has an extended-key-usage extension, and its emitted DER
contains the criticality marker bytes `01 01 FF` directly after the
extended-key-usage OID `06 03 55 1D 25`. -/
theorem c6_counterexample :
    (Cert.new asn1Input2).map (fun c => c.extensions.ext_key_usage.isSome) = some true ∧
    (Cert.new asn1Input2).map Cert.as_asn1 = some (Except.ok asn1Output2) ∧
    [6, 3, 85, 29, 37, 1, 1, 255] <:+: asn1Output2 := by
  refine ⟨by decide, by decide, by decide⟩

/-- C6 (amended): in the emitted extension op sequence the
basic-constraints, key-usage AND extended-key-usage extensions carry the
BOOLEAN criticality marker right after their OID, while subject-key-id
and authority-key-id are emitted with their value wrapper directly after
the OID (no criticality marker). -/
theorem c6_criticality :
    ∀ (x : Extensions) (ops : List ASN1Op), Extensions.encode x = Except.ok ops →
      (x.basic_const.isSome = true →
        [ASN1Op.oid OID_BASIC_CONSTRAINTS, ASN1Op.boolOp true] <:+: ops) ∧
      (x.key_usage.isSome = true →
        [ASN1Op.oid OID_KEY_USAGE, ASN1Op.boolOp true] <:+: ops) ∧
      (x.ext_key_usage.isSome = true →
        [ASN1Op.oid OID_EXT_KEY_USAGE, ASN1Op.boolOp true] <:+: ops) ∧
      (x.subj_key_id.isSome = true →
        [ASN1Op.oid OID_SUBJ_KEY_IDENTIFIER, ASN1Op.startCompoundOstr] <:+: ops) ∧
      (x.auth_key_id.isSome = true →
        [ASN1Op.oid OID_AUTH_KEY_ID, ASN1Op.startCompoundOstr] <:+: ops) := by
  intro x ops h
  rcases hek : x.ext_key_usage with _ | t
  · simp only [Extensions.encode, hek, Except.ok.injEq] at h
    subst h
    refine ⟨?_, ?_, ?_, ?_, ?_⟩
    · intro hbc
      rcases hb : x.basic_const with _ | b
      · rw [hb] at hbc; simp at hbc
      · simp only [hb]
        apply infix_inl
        apply infix_inl
        apply infix_inl
        apply infix_inl
        apply infix_inl
        apply infix_inr
        apply infix_inl
        apply infix_inl
        decide
    · intro hku
      rcases hk : x.key_usage with _ | kv
      · rw [hk] at hku; simp at hku
      · simp only [hk]
        apply infix_inl
        apply infix_inl
        apply infix_inl
        apply infix_inl
        apply infix_inr
        apply infix_inl
        apply infix_inl
        decide
    · intro habs
      simp at habs
    · intro hsk
      rcases hs : x.subj_key_id with _ | sv
      · rw [hs] at hsk; simp at hsk
      · simp only [hs]
        apply infix_inl
        apply infix_inl
        apply infix_inr
        apply infix_inl
        apply infix_inl
        decide
    · intro hak
      rcases hay : x.auth_key_id with _ | av
      · rw [hay] at hak; simp at hak
      · simp only [hay]
        apply infix_inl
        apply infix_inr
        apply infix_inl
        apply infix_inl
        decide
  · simp only [Extensions.encode, hek] at h
    rcases hE : encode_extended_key_usage t with e | body
    · rw [hE] at h; simp at h
    · rw [hE] at h
      simp only [Except.ok.injEq] at h
      subst h
      refine ⟨?_, ?_, ?_, ?_, ?_⟩
      · intro hbc
        rcases hb : x.basic_const with _ | b
        · rw [hb] at hbc; simp at hbc
        · simp only [hb]
          apply infix_inl
          apply infix_inl
          apply infix_inl
          apply infix_inl
          apply infix_inl
          apply infix_inr
          apply infix_inl
          apply infix_inl
          decide
      · intro hku
        rcases hk : x.key_usage with _ | kv
        · rw [hk] at hku; simp at hku
        · simp only [hk]
          apply infix_inl
          apply infix_inl
          apply infix_inl
          apply infix_inl
          apply infix_inr
          apply infix_inl
          apply infix_inl
          decide
      · intro _
        apply infix_inl
        apply infix_inl
        apply infix_inl
        apply infix_inr
        apply infix_inl
        apply infix_inl
        decide
      · intro hsk
        rcases hs : x.subj_key_id with _ | sv
        · rw [hs] at hsk; simp at hsk
        · simp only [hs]
          apply infix_inl
          apply infix_inl
          apply infix_inr
          apply infix_inl
          apply infix_inl
          decide
      · intro hak
        rcases hay : x.auth_key_id with _ | av
        · rw [hay] at hak; simp at hak
        · simp only [hay]
          apply infix_inl
          apply infix_inr
          apply infix_inl
          apply infix_inl
          decide

/-- C6 witness: `c6_criticality` at an extensions value with all five
extensions present. -/
theorem c6_witness :
    ([ASN1Op.oid OID_BASIC_CONSTRAINTS, ASN1Op.boolOp true] <:+: extsAllOps) ∧
    ([ASN1Op.oid OID_KEY_USAGE, ASN1Op.boolOp true] <:+: extsAllOps) ∧
    ([ASN1Op.oid OID_EXT_KEY_USAGE, ASN1Op.boolOp true] <:+: extsAllOps) ∧
    ([ASN1Op.oid OID_SUBJ_KEY_IDENTIFIER, ASN1Op.startCompoundOstr] <:+: extsAllOps) ∧
    ([ASN1Op.oid OID_AUTH_KEY_ID, ASN1Op.startCompoundOstr] <:+: extsAllOps) :=
  ⟨(c6_criticality extsAll extsAllOps (by decide)).1 (by decide),
   (c6_criticality extsAll extsAllOps (by decide)).2.1 (by decide),
   (c6_criticality extsAll extsAllOps (by decide)).2.2.1 (by decide),
   (c6_criticality extsAll extsAllOps (by decide)).2.2.2.1 (by decide),
   (c6_criticality extsAll extsAllOps (by decide)).2.2.2.2 (by decide)⟩

/-- Shared helper: the behaviour of `add_cert` when the parent has a
subject-key-id and the held certificate re-encodes to DER. -/
theorem add_cert_eq (v : VerifyOracle) (leaf parent : Cert) (s der : List Nat)
    (hs : parent.extensions.subj_key_id = some s)
    (hd : leaf.as_asn1 = Except.ok der) :
    (CertVerifier.mk leaf).add_cert v parent =
      (if leaf.extensions.auth_key_id = some s then
        (if v parent.pubkey der leaf.signature then Except.ok (CertVerifier.mk parent)
         else Except.error Error.InvalidSignature)
       else Except.error Error.InvalidAuthKey) := by
  simp only [CertVerifier.add_cert, Cert.is_authority, Cert.get_subject_key_id, hs]
  rcases ha : leaf.extensions.auth_key_id with _ | a
  · simp
  · by_cases hae : a = s
    · subst hae
      simp [hd]
    · simp [hae]

/-- C2 (amended): provided the parent carries a subject-key-id and the
leaf DER re-encoding succeeds, `add_cert` returns invalid-auth-key
exactly when the leaf authority-key-id is absent or differs from the
parent subject-key-id, invalid-signature when the signature check
fails, and a verifier anchored at the parent otherwise. -/
theorem c2_add_cert :
    ∀ (v : VerifyOracle) (leaf parent : Cert) (s der : List Nat),
      parent.extensions.subj_key_id = some s →
      leaf.as_asn1 = Except.ok der →
      (leaf.verify_chain_start).add_cert v parent =
        (if leaf.extensions.auth_key_id = some s then
          (if v parent.pubkey der leaf.signature then Except.ok (CertVerifier.mk parent)
           else Except.error Error.InvalidSignature)
         else Except.error Error.InvalidAuthKey) := by
  intro v leaf parent s der hs hd
  exact add_cert_eq v leaf parent s der hs hd

/-- C2 counterexample: the claim as stated fails when the parent has no
subject-key-id: `add_cert` then returns the generic `Error::Invalid`,
neither invalid-auth-key nor invalid-signature nor a verifier.  Both
certificates are parseable (their canonical TLV encodings parse back to
them). -/
theorem c2_counterexample :
    Cert.new (Cert.as_tlv leafCx) = some leafCx ∧
    Cert.new (Cert.as_tlv parentCx) = some parentCx ∧
    leafCx.extensions.auth_key_id.isSome = true ∧
    parentCx.extensions.subj_key_id = none ∧
    (leafCx.verify_chain_start).add_cert alwaysVerify parentCx =
      Except.error Error.Invalid ∧
    Error.Invalid ≠ Error.InvalidAuthKey ∧
    Error.Invalid ≠ Error.InvalidSignature := by
  refine ⟨by decide, by decide, by decide, by decide, by decide, by decide, by decide⟩

/-- C2 witness: `c2_add_cert` on the NOC1/ICAC1 fixture pair with an
all-accepting oracle: the chain ids match and the result is a verifier
anchored at the ICAC. -/
theorem c2_witness :
    (nocCert.verify_chain_start).add_cert alwaysVerify icacCert =
      Except.ok (CertVerifier.mk icacCert) := by
  have h := c2_add_cert alwaysVerify nocCert icacCert icacSubj nocDer (by decide) (by decide)
  rw [h]
  decide

/-- C3: `finalise` succeeds exactly when the held certificate is
self-signed in the spec sense (`specSelfSigned`); and the NOC1→ICAC1
walk — whose one `add_cert` step succeeds whenever the oracle accepts
the NOC signature — finalises to invalid-auth-key because it stops
before the self-signed root. -/
theorem c3_finalise :
    (∀ (v : VerifyOracle) (c : Cert),
      (Cert.verify_chain_start c).finalise v = Except.ok () ↔ specSelfSigned v c) ∧
    (∀ v : VerifyOracle, v icacCert.pubkey nocDer nocCert.signature = true →
      ((nocCert.verify_chain_start).add_cert v icacCert).bind
        (fun cv => cv.finalise v) = Except.error Error.InvalidAuthKey) := by
  constructor
  · intro v c
    simp only [CertVerifier.finalise, Cert.verify_chain_start, CertVerifier.add_cert,
      Cert.is_authority, Cert.get_subject_key_id, specSelfSigned]
    rcases ha : c.extensions.auth_key_id with _ | a
    · simp
    · rcases hsb : c.extensions.subj_key_id with _ | sb
      · simp
      · by_cases hab : a = sb
        · subst hab
          rcases hasn : c.as_asn1 with e | der
          · simp [hasn]
          · by_cases hv : v c.pubkey der c.signature = true
            · simp [hasn, hv]
            · simp [hasn, hv]
        · simp [hab]
  · intro v hv
    have h1 := add_cert_eq v nocCert icacCert icacSubj nocDer (by decide) (by decide)
    have hstart : (nocCert.verify_chain_start).add_cert v icacCert =
        (CertVerifier.mk nocCert).add_cert v icacCert := rfl
    rw [hstart, h1, if_pos (by decide), if_pos hv]
    show (CertVerifier.mk icacCert).finalise v = Except.error Error.InvalidAuthKey
    have h2 := add_cert_eq v icacCert icacCert icacSubj icacDer (by decide) (by decide)
    simp only [CertVerifier.finalise]
    rw [h2, if_neg (by decide)]

/-- C3 witness: the NOC1→ICAC1 walk under the all-accepting oracle
finalises to invalid-auth-key. -/
theorem c3_witness :
    ((nocCert.verify_chain_start).add_cert alwaysVerify icacCert).bind
      (fun cv => cv.finalise alwaysVerify) = Except.error Error.InvalidAuthKey :=
  c3_finalise.2 alwaysVerify rfl

end MatterSpec
